import Mathlib

/-!
Verification of the nokia_gateway lifecycle manager and ingestion pipeline.

Shallow embedding of the Python sources:
* `token_manager.py`  (spec: CredentialStore)  — `TokenState`, `is_token_valid`,
  `refresh_access_token`, `get_authorization_header`, `auto_refresh_worker`;
* `alarm_subscription.py` (spec: SubscriptionService) — `SubState`,
  `create_subscription`, `renew_subscription`, `delete_subscription`;
* `kafka_consumer.py` (spec: StreamConsumer) — `consume_worker`;
* `alarm_manager.py` (spec: Orchestrator) — `shutdown`, `renewal_worker`.

Network I/O is modelled by passing the outcome of each remote exchange as an
explicit parameter (`Except ReqError _`); Python exceptions become `Except`
results, and a raised-and-caught exception becomes the branch the `except`
clause takes.  Wall-clock instants are integers (seconds).
-/

namespace NokiaGateway

/-- Python truthiness of an `Optional[str]`: `None` and `""` are falsy.
Mirrors guards such as `if not self.refresh_token` in the sources. -/
def pyTruthyStr : Option String → Bool
  | none => false
  | some s => !(s == "")

/-- A `requests` failure: `raise_for_status` produces an `HTTPError` carrying
the response status (absent when there is no response object); every other
`RequestException` (timeout, connection refused, ...) is `connError`. -/
inductive ReqError
  | httpError (status : Option Nat)
  | connError
deriving DecidableEq, Repr

/-- A Python exception escaping one of the embedded functions:
`ValueError` (the spec's StateError) or a re-raised `RequestException`. -/
inductive PyErr
  | valueError
  | requestException (e : ReqError)
deriving DecidableEq, Repr

/-! ## token_manager.py — `TokenManager` (spec: CredentialStore) -/

/-- The mutable credential fields of `TokenManager` (token_manager.py, lines
53–57).  `token_expiry` is an absolute instant in seconds (`None` before any
acquisition). -/
structure TokenState where
  access_token : Option String
  refresh_token : Option String
  token_type : String
  expires_in : Int
  token_expiry : Option Int
deriving DecidableEq, Repr

/-- The JSON body of a successful `POST /auth/token` response, with every
field optional, as the code reads it via `dict.get`. -/
structure TokenResponse where
  access_token : Option String
  refresh_token : Option String
  token_type : Option String
  expires_in : Option Int
deriving DecidableEq, Repr

/-- `TokenManager.is_token_valid` (token_manager.py, lines 260–272):
returns `False` when `access_token` or `token_expiry` is falsy, otherwise
`now < token_expiry - 60s`. -/
def is_token_valid (st : TokenState) (now : Int) : Bool :=
  match st.token_expiry with
  | none => false
  | some e => pyTruthyStr st.access_token && decide (now < e - 60)

/-- `TokenManager.refresh_access_token` (token_manager.py, lines 126–179).
Reads the stored refresh token; when it is falsy, raises `ValueError` before
any network exchange (the `net` outcome is never consulted).  Otherwise the
refresh exchange runs: a `RequestException` is logged and re-raised with the
state untouched; on success all credential fields are replaced from the
response (`dict.get` defaults `Bearer` / `3600`) and
`token_expiry := now + expires_in`.  Returns the new state and the raised
exception or returned token data. -/
def refresh_access_token (st : TokenState) (net : Except ReqError TokenResponse)
    (now : Int) : TokenState × Except PyErr TokenResponse :=
  if pyTruthyStr st.refresh_token = false then
    (st, Except.error PyErr.valueError)
  else
    match net with
    | Except.error e => (st, Except.error (PyErr.requestException e))
    | Except.ok td =>
        ({ access_token := td.access_token
           refresh_token := td.refresh_token
           token_type := td.token_type.getD "Bearer"
           expires_in := td.expires_in.getD 3600
           token_expiry := some (now + td.expires_in.getD 3600) },
         Except.ok td)

/-- `TokenManager.get_authorization_header` (token_manager.py, lines 181–194):
raises `ValueError` when no access token is stored, otherwise returns
`"{token_type} {access_token}"`. -/
def get_authorization_header (st : TokenState) : Except PyErr String :=
  if pyTruthyStr st.access_token = false then Except.error PyErr.valueError
  else Except.ok (st.token_type ++ " " ++ st.access_token.getD "")

/-! ## Claim theorems for the credential store -/

/-- **C3.** `is_token_valid` returns `true` iff a credential exists
(truthy access token and a recorded expiry) and `now < expiry − 60s`;
at the boundary instant `now = expiry − 60s` it returns `false`; with no
acquired credential (`access_token = None`) it returns `false`. -/
theorem C3_is_token_valid_iff (st : TokenState) (now : Int) :
    (is_token_valid st now = true ↔
      pyTruthyStr st.access_token = true ∧
        ∃ e, st.token_expiry = some e ∧ now < e - 60)
    ∧ (∀ e, st.token_expiry = some e → is_token_valid st (e - 60) = false)
    ∧ (st.access_token = none → is_token_valid st now = false) := by
  refine ⟨?_, ?_, ?_⟩
  · cases h : st.token_expiry with
    | none => simp [is_token_valid, h]
    | some e =>
        simp only [is_token_valid, h, Bool.and_eq_true, decide_eq_true_eq]
        constructor
        · rintro ⟨h1, h2⟩; exact ⟨h1, e, rfl, h2⟩
        · rintro ⟨h1, e', he', h2⟩
          cases Option.some.inj he'
          exact ⟨h1, h2⟩
  · intro e he
    simp [is_token_valid, he]
  · intro ha
    cases h : st.token_expiry with
    | none => simp [is_token_valid, h]
    | some e => simp [is_token_valid, h, ha, pyTruthyStr]

/-- Witness for C3: a concrete credential expiring at `1000` is valid at
`now = 100`. -/
theorem C3_is_token_valid_iff_witness :
    is_token_valid
      { access_token := some "T1", refresh_token := some "R1",
        token_type := "Bearer", expires_in := 3600, token_expiry := some 1000 }
      100 = true :=
  (C3_is_token_valid_iff
      { access_token := some "T1", refresh_token := some "R1",
        token_type := "Bearer", expires_in := 3600, token_expiry := some 1000 }
      100).1.mpr ⟨by decide, 1000, rfl, by decide⟩

/-- **C5.** `refresh_access_token` with no stored refresh token raises
`ValueError` (the spec's StateError) and leaves the state — hence every
credential field — unchanged; the result does not depend on `net`, so the
error is raised before any network exchange. -/
theorem C5_refresh_without_token (st : TokenState)
    (net : Except ReqError TokenResponse) (now : Int)
    (h : pyTruthyStr st.refresh_token = false) :
    refresh_access_token st net now = (st, Except.error PyErr.valueError) := by
  simp [refresh_access_token, h]

/-- Witness for C5: a state holding an access token but no refresh token. -/
theorem C5_refresh_without_token_witness :
    refresh_access_token
      { access_token := some "T1", refresh_token := none,
        token_type := "Bearer", expires_in := 3600, token_expiry := some 1000 }
      (Except.ok { access_token := some "T2", refresh_token := some "R2",
                   token_type := some "Bearer", expires_in := some 3600 })
      0
    = ({ access_token := some "T1", refresh_token := none,
         token_type := "Bearer", expires_in := 3600, token_expiry := some 1000 },
       Except.error PyErr.valueError) :=
  C5_refresh_without_token _ _ 0 (by decide)

/-! ## alarm_subscription.py — `AlarmSubscription` (spec: SubscriptionService) -/

/-- The mutable subscription fields of `AlarmSubscription`
(alarm_subscription.py, lines 36–38), all `None` at construction. -/
structure SubState where
  subscription_id : Option String
  topic_id : Option String
  expires_at : Option String
deriving DecidableEq, Repr

/-- The relevant fields of a subscription-creation response body after the
code's envelope unwrapping (alarm_subscription.py, lines 89–92: the payload
is taken from `response.data` when that nesting is present, else from the
top level); each field is read with `dict.get` and may be absent. -/
structure SubData where
  subscriptionId : Option String
  topicId : Option String
  expiresAt : Option String
deriving DecidableEq, Repr

/-- `AlarmSubscription.create_subscription` (alarm_subscription.py, lines
43–113).  Obtains the authorization header first — a `ValueError` from
`get_authorization_header` propagates with the state untouched.  A
`RequestException` from the exchange is logged and re-raised, state
untouched.  On success the three fields are overwritten from the response
data and the same triple is returned. -/
def create_subscription (st : SubState) (tok : TokenState)
    (net : Except ReqError SubData) : SubState × Except PyErr SubData :=
  match get_authorization_header tok with
  | Except.error e => (st, Except.error e)
  | Except.ok _ =>
      match net with
      | Except.error e => (st, Except.error (PyErr.requestException e))
      | Except.ok data =>
          ({ subscription_id := data.subscriptionId
             topic_id := data.topicId
             expires_at := data.expiresAt },
           Except.ok data)

/-- `AlarmSubscription.renew_subscription` (alarm_subscription.py, lines
115–150).  With a falsy `subscription_id` it logs and returns `False`
without touching anything.  Otherwise a `ValueError` from
`get_authorization_header` propagates (only `RequestException` is caught);
a `RequestException` yields `False`; success yields `True`.  No branch
mutates the stored fields. -/
def renew_subscription (st : SubState) (tok : TokenState)
    (net : Except ReqError Unit) : SubState × Except PyErr Bool :=
  if pyTruthyStr st.subscription_id = false then (st, Except.ok false)
  else
    match get_authorization_header tok with
    | Except.error e => (st, Except.error e)
    | Except.ok _ =>
        match net with
        | Except.error _ => (st, Except.ok false)
        | Except.ok _ => (st, Except.ok true)

/-- `AlarmSubscription.delete_subscription` (alarm_subscription.py, lines
152–188).  With a falsy `subscription_id` it returns `False` untouched.
A `ValueError` from `get_authorization_header` propagates; a
`RequestException` from the exchange yields `False` with the state
untouched; on confirmed success the three fields are set to `None` and
`True` is returned. -/
def delete_subscription (st : SubState) (tok : TokenState)
    (net : Except ReqError Unit) : SubState × Except PyErr Bool :=
  if pyTruthyStr st.subscription_id = false then (st, Except.ok false)
  else
    match get_authorization_header tok with
    | Except.error e => (st, Except.error e)
    | Except.ok _ =>
        match net with
        | Except.error _ => (st, Except.ok false)
        | Except.ok _ =>
            ({ subscription_id := none, topic_id := none, expires_at := none },
             Except.ok true)

/-- The spec's subscription invariant: the topic identifier is non-null iff
the subscription identifier is non-null. -/
def subInvariant (st : SubState) : Prop :=
  st.topic_id.isSome = st.subscription_id.isSome

instance (st : SubState) : Decidable (subInvariant st) := by
  unfold subInvariant; infer_instance

/-! ## Claim theorems for the subscription service -/

/-- **C2.** From any state that holds a subscription identifier, with an
authorization header available: a remote failure of `delete_subscription`
returns `false` and leaves the stored identifier, topic and expiry exactly
as they were, and a confirmed remote success returns `true` and sets all
three fields to `None`. -/
theorem C2_delete_failure_keeps_state (st : SubState) (tok : TokenState)
    (hid : pyTruthyStr st.subscription_id = true)
    (hauth : pyTruthyStr tok.access_token = true) :
    (∀ e : ReqError,
        delete_subscription st tok (Except.error e) = (st, Except.ok false))
    ∧ delete_subscription st tok (Except.ok ()) =
        ({ subscription_id := none, topic_id := none, expires_at := none },
         Except.ok true) := by
  constructor
  · intro e
    simp [delete_subscription, get_authorization_header, hid, hauth]
  · simp [delete_subscription, get_authorization_header, hid, hauth]

/-- Witness for C2: a concrete active subscription and valid token. -/
theorem C2_delete_failure_keeps_state_witness :
    delete_subscription
      { subscription_id := some "S1", topic_id := some "Top1",
        expires_at := some "2026-01-01" }
      { access_token := some "T1", refresh_token := some "R1",
        token_type := "Bearer", expires_in := 3600, token_expiry := some 1000 }
      (Except.error ReqError.connError)
    = ({ subscription_id := some "S1", topic_id := some "Top1",
         expires_at := some "2026-01-01" }, Except.ok false) :=
  (C2_delete_failure_keeps_state _ _ (by decide) (by decide)).1
    ReqError.connError

/-- **C7.** `renew_subscription` with no stored subscription identifier
returns `false` (it does not raise, whatever the token state or the would-be
network outcome) and leaves the subscription state unchanged. -/
theorem C7_renew_from_empty (st : SubState) (tok : TokenState)
    (net : Except ReqError Unit)
    (hid : st.subscription_id = none) :
    renew_subscription st tok net = (st, Except.ok false) := by
  simp [renew_subscription, hid, pyTruthyStr]

/-- Witness for C7: the freshly constructed (EMPTY) state. -/
theorem C7_renew_from_empty_witness :
    renew_subscription
      { subscription_id := none, topic_id := none, expires_at := none }
      { access_token := some "T1", refresh_token := some "R1",
        token_type := "Bearer", expires_in := 3600, token_expiry := some 1000 }
      (Except.ok ())
    = ({ subscription_id := none, topic_id := none, expires_at := none },
       Except.ok false) :=
  C7_renew_from_empty _ _ _ rfl

/-- **C8, counterexample.** Starting from the EMPTY state (which satisfies
the invariant) with a valid token, a successful `create_subscription` whose
response data carries a `subscriptionId` but no `topicId` leaves a state
with a non-null subscription identifier and a null topic identifier: the
claimed invariant does not hold after every operation. -/
theorem C8_counterexample :
    ¬ subInvariant
        (create_subscription
          { subscription_id := none, topic_id := none, expires_at := none }
          { access_token := some "T1", refresh_token := some "R1",
            token_type := "Bearer", expires_in := 3600,
            token_expiry := some 1000 }
          (Except.ok { subscriptionId := some "S1", topicId := none,
                       expiresAt := some "2026-01-01" })).1 := by
  decide

/-- **C8, amended.** From any state satisfying the invariant, `renew` and
`delete` preserve it (for every token state and network outcome), a failed
`create` preserves it, and a successful `create` re-establishes it exactly
when the response data carries a topic identifier iff it carries a
subscription identifier — a response with one of the two fields missing is
the only way to break it. -/
theorem C8_invariant_preserved (st : SubState) (tok : TokenState)
    (net : Except ReqError Unit) (data : SubData)
    (hinv : subInvariant st) :
    subInvariant (renew_subscription st tok net).1
    ∧ subInvariant (delete_subscription st tok net).1
    ∧ (∀ e : ReqError,
        subInvariant (create_subscription st tok (Except.error e)).1)
    ∧ (data.topicId.isSome = data.subscriptionId.isSome →
        subInvariant (create_subscription st tok (Except.ok data)).1) := by
  refine ⟨?_, ?_, ?_, ?_⟩
  · unfold renew_subscription
    cases h1 : pyTruthyStr st.subscription_id <;>
      cases h2 : get_authorization_header tok <;>
      cases net <;> simpa using hinv
  · unfold delete_subscription
    cases h1 : pyTruthyStr st.subscription_id <;>
      cases h2 : get_authorization_header tok <;>
      cases net <;> first
        | simpa using hinv
        | simp [subInvariant]
  · intro e
    unfold create_subscription
    cases h2 : get_authorization_header tok <;> simpa using hinv
  · intro hdata
    unfold create_subscription
    cases h2 : get_authorization_header tok with
    | error e => simpa using hinv
    | ok s => simpa [subInvariant] using hdata

/-- Witness for C8's amended statement: concrete EMPTY state, valid token,
failing network, and a response carrying both fields. -/
theorem C8_invariant_preserved_witness :
    subInvariant
      (create_subscription
        { subscription_id := none, topic_id := none, expires_at := none }
        { access_token := some "T1", refresh_token := some "R1",
          token_type := "Bearer", expires_in := 3600, token_expiry := some 1000 }
        (Except.ok { subscriptionId := some "S1", topicId := some "Top1",
                     expiresAt := some "2026-01-01" })).1 :=
  (C8_invariant_preserved
      { subscription_id := none, topic_id := none, expires_at := none }
      { access_token := some "T1", refresh_token := some "R1",
        token_type := "Bearer", expires_in := 3600, token_expiry := some 1000 }
      (Except.ok ())
      { subscriptionId := some "S1", topicId := some "Top1",
        expiresAt := some "2026-01-01" }
      (by decide)).2.2.2 (by decide)

/-! ## alarm_manager.py — `AlarmManager.shutdown` (spec: Orchestrator) -/

/-- The three teardown calls made by `AlarmManager.shutdown`
(alarm_manager.py, lines 166–183), in source order. -/
inductive SStep
  | stopRenewal
  | stopKafka
  | deleteSub
deriving DecidableEq, Repr

/-- Which teardown call raises, if any.  `stop_consuming` and the renewal
join rarely raise, but `delete_subscription` can (e.g. the `ValueError`
from `get_authorization_header` when no access token is stored, which its
own `except` clause does not catch). -/
structure ShutdownEnv where
  stopRenewalRaises : Bool
  stopConsumingRaises : Bool
  deleteRaises : Bool
deriving DecidableEq, Repr

/-- `AlarmManager.shutdown` (alarm_manager.py, lines 156–192).  A no-op when
not running.  Otherwise one `try` block runs, in order: stop the renewal
thread, stop the Kafka consumer, delete the subscription, then set
`is_running = False`; a single `except` clause catches any exception and
only logs it, so the first raising step ends the block — the later steps do
not run and `is_running` keeps its value `True`.  Returns the list of steps
that were invoked and the final `is_running` flag. -/
def shutdown (isRunning : Bool) (env : ShutdownEnv) : List SStep × Bool :=
  if isRunning = false then ([], false)
  else if env.stopRenewalRaises then ([SStep.stopRenewal], true)
  else if env.stopConsumingRaises then
    ([SStep.stopRenewal, SStep.stopKafka], true)
  else if env.deleteRaises then
    ([SStep.stopRenewal, SStep.stopKafka, SStep.deleteSub], true)
  else ([SStep.stopRenewal, SStep.stopKafka, SStep.deleteSub], false)

/-- **C4, counterexample.** With the orchestrator running, if stopping the
stream consumer raises, the subscription-deletion step is never invoked and
the orchestrator is still marked running afterwards — an error in one
teardown step does prevent the remaining steps and the final
not-running mark. -/
theorem C4_counterexample :
    (shutdown true { stopRenewalRaises := false, stopConsumingRaises := true,
                     deleteRaises := false }).2 = true
    ∧ SStep.deleteSub ∉
        (shutdown true { stopRenewalRaises := false,
                         stopConsumingRaises := true,
                         deleteRaises := false }).1 := by
  decide

/-- **C4, amended.** `shutdown` never propagates an exception (it always
returns), and any teardown step's error is caught and only logged — but it
aborts the remaining steps rather than skipping past them: the first step
is always invoked, a raising step prevents every later step, and the
orchestrator is marked not running at the end exactly when no step
raised. -/
theorem C4_shutdown_best_effort (env : ShutdownEnv) :
    ((shutdown true env).2 = false ↔
      env.stopRenewalRaises = false ∧ env.stopConsumingRaises = false ∧
        env.deleteRaises = false)
    ∧ SStep.stopRenewal ∈ (shutdown true env).1
    ∧ (env.stopRenewalRaises = true →
        SStep.stopKafka ∉ (shutdown true env).1)
    ∧ (env.stopConsumingRaises = true →
        SStep.deleteSub ∉ (shutdown true env).1) := by
  obtain ⟨a, b, c⟩ := env
  revert a b c
  decide

/-- Witness for C4's amended statement: with no step raising, the
orchestrator ends up marked not running. -/
theorem C4_shutdown_best_effort_witness :
    (shutdown true { stopRenewalRaises := false, stopConsumingRaises := false,
                     deleteRaises := false }).2 = false :=
  (C4_shutdown_best_effort
      { stopRenewalRaises := false, stopConsumingRaises := false,
        deleteRaises := false }).1.mpr ⟨rfl, rfl, rfl⟩

/-! ## Traces of the periodic background workers

Both `AlarmManager._renewal_worker` and `TokenManager._auto_refresh_worker`
are `while not stop: wait(interval); <body>` loops.  A run is modelled by
the finite list of completed wait-cycles (the list ends when the stop event
interrupts the wait), each cycle contributing the calls its body makes, in
source order, tagged with the cycle number. -/

/-- Concatenated per-cycle event blocks: cycle `i` of the run contributes
`f i aᵢ`, where `aᵢ` describes the outcomes the cycle's body encounters. -/
def cycleTrace {α ε : Type} (f : Nat → α → List ε) :
    List α → Nat → List ε
  | [], _ => []
  | a :: rest, i => f i a ++ cycleTrace f rest (i + 1)

/-- Every event of a trace starting at cycle `start` is tagged `≥ start`. -/
theorem cycleTrace_tag_ge {α ε : Type} (f : Nat → α → List ε) (tag : ε → Nat)
    (hf : ∀ i a, ∀ e ∈ f i a, tag e = i) (as : List α) :
    ∀ start : Nat, ∀ e ∈ cycleTrace f as start, start ≤ tag e := by
  induction as with
  | nil => intro start e he; simp [cycleTrace] at he
  | cons a rest ih =>
      intro start e he
      simp only [cycleTrace, List.mem_append] at he
      rcases he with h | h
      · exact le_of_eq (hf start a e h).symm
      · exact Nat.le_of_succ_le (ih (start + 1) e h)

/-- Restricting a trace to the events of cycle `start + i` yields exactly
that cycle's block, in order. -/
theorem cycleTrace_filter {α ε : Type} (f : Nat → α → List ε) (tag : ε → Nat)
    (hf : ∀ i a, ∀ e ∈ f i a, tag e = i) (as : List α) :
    ∀ (start i : Nat) (h : i < as.length),
      (cycleTrace f as start).filter (fun e => tag e == start + i) =
        f (start + i) as[i] := by
  induction as with
  | nil => intro start i h; simp at h
  | cons a rest ih =>
      intro start i h
      cases i with
      | zero =>
          simp only [cycleTrace, List.filter_append]
          have h1 : (f start a).filter (fun e => tag e == start + 0)
              = f start a := by
            rw [List.filter_eq_self]
            intro e he
            simp [hf start a e he]
          have h2 : (cycleTrace f rest (start + 1)).filter
              (fun e => tag e == start + 0) = [] := by
            rw [List.filter_eq_nil_iff]
            intro e he
            have := cycleTrace_tag_ge f tag hf rest (start + 1) e he
            simp only [beq_iff_eq]
            omega
          rw [h1, h2, List.append_nil]
          simp
      | succ j =>
          simp only [cycleTrace, List.filter_append]
          have h1 : (f start a).filter (fun e => tag e == start + (j + 1))
              = [] := by
            rw [List.filter_eq_nil_iff]
            intro e he
            have := hf start a e he
            simp only [beq_iff_eq]
            omega
          have hj : j < rest.length := by simpa using h
          have harith : start + 1 + j = start + (j + 1) := by omega
          have h2 := ih (start + 1) j hj
          rw [h1, List.nil_append, ← harith, h2]
          simp

/-! ### alarm_manager.py — `AlarmManager._renewal_worker` -/

/-- Calls made by the orchestrator's renewal worker, tagged with the cycle
in which they occur: the timed wait completing (`tick`), the
`token_manager.refresh_access_token()` call, and the
`alarm_subscription.renew_subscription()` call. -/
inductive WEvent
  | tick (n : Nat)
  | refreshAttempt (n : Nat)
  | renewAttempt (n : Nat)
deriving DecidableEq, Repr

/-- The cycle an event belongs to. -/
def wCycle : WEvent → Nat
  | WEvent.tick n => n
  | WEvent.refreshAttempt n => n
  | WEvent.renewAttempt n => n

/-- What one renewal cycle's body runs into: whether the token refresh
raises, and whether the subscription renewal fails (returns `False` or
raises). -/
structure RenewCycle where
  refreshRaises : Bool
  renewFails : Bool
deriving DecidableEq, Repr

/-- One cycle of `AlarmManager._renewal_worker` (alarm_manager.py, lines
131–152): after the wait completes, the `try` block calls
`refresh_access_token()` and then `renew_subscription()`; an exception from
the refresh skips the renewal and is only logged by the `except` clause, so
nothing else runs before the next wait.  The renewal's outcome is ignored
by the worker (its return value is unused and an exception from it is
likewise only logged), so it contributes no further calls either way. -/
def renewalCycleEvents (i : Nat) (c : RenewCycle) : List WEvent :=
  WEvent.tick i :: WEvent.refreshAttempt i ::
    (if c.refreshRaises then [] else [WEvent.renewAttempt i])

/-- A run of `AlarmManager._renewal_worker` over the given completed
cycles, starting at cycle number `start`. -/
def renewal_worker (cs : List RenewCycle) (start : Nat) : List WEvent :=
  cycleTrace renewalCycleEvents cs start

theorem renewalCycleEvents_tag (i : Nat) (c : RenewCycle) :
    ∀ e ∈ renewalCycleEvents i c, wCycle e = i := by
  intro e he
  simp only [renewalCycleEvents, List.mem_cons] at he
  rcases he with rfl | rfl | he
  · rfl
  · rfl
  · cases hc : c.refreshRaises with
    | false => rw [hc] at he; simp at he; subst he; rfl
    | true => rw [hc] at he; simp at he

/-- The trace does not depend on the subscription-renewal outcomes: the
worker takes no action on a failed renewal beyond logging. -/
theorem renewal_worker_ignores_renew_outcome :
    ∀ (cs cs₂ : List RenewCycle) (start : Nat),
      cs.map RenewCycle.refreshRaises = cs₂.map RenewCycle.refreshRaises →
      renewal_worker cs start = renewal_worker cs₂ start := by
  intro cs
  induction cs with
  | nil =>
      intro cs₂ start h
      cases cs₂ with
      | nil => rfl
      | cons c₂ rest₂ => simp at h
  | cons c rest ih =>
      intro cs₂ start h
      cases cs₂ with
      | nil => simp at h
      | cons c₂ rest₂ =>
          simp only [List.map_cons, List.cons.injEq] at h
          obtain ⟨h1, h2⟩ := h
          have hhead : renewalCycleEvents start c
              = renewalCycleEvents start c₂ := by
            simp [renewalCycleEvents, h1]
          have htail := ih rest₂ (start + 1) h2
          simp only [renewal_worker, cycleTrace] at htail ⊢
          rw [hhead, htail]

/-- **C6.** In every completed cycle `i` of the orchestrator's renewal
worker, the events of that cycle are exactly: the timed wait completing,
then one credential-refresh call, then — only when the refresh did not
raise — one subscription-renewal call.  Thus the refresh strictly precedes
the renewal (filtering preserves the trace order), each appears at most
once per cycle (no immediate retry within a cycle), and the trace is
independent of the renewal outcomes (a failed renewal is only logged; the
worker just waits for the next tick). -/
theorem C6_renewal_cycle_order (cs : List RenewCycle) (i : Nat)
    (h : i < cs.length) :
    ((renewal_worker cs 0).filter (fun e => wCycle e == i) =
      WEvent.tick i :: WEvent.refreshAttempt i ::
        (if cs[i].refreshRaises then [] else [WEvent.renewAttempt i]))
    ∧ (∀ cs₂ : List RenewCycle,
        cs.map RenewCycle.refreshRaises = cs₂.map RenewCycle.refreshRaises →
        renewal_worker cs 0 = renewal_worker cs₂ 0) := by
  constructor
  · have := cycleTrace_filter renewalCycleEvents wCycle
      renewalCycleEvents_tag cs 0 i h
    simpa [renewal_worker, renewalCycleEvents] using this
  · intro cs₂ hmap
    exact renewal_worker_ignores_renew_outcome cs cs₂ 0 hmap

/-- Witness for C6: a two-cycle run whose first refresh succeeds and whose
second raises; cycle 1 contains no renewal attempt. -/
theorem C6_renewal_cycle_order_witness :
    (renewal_worker [{ refreshRaises := false, renewFails := false },
                     { refreshRaises := true, renewFails := true }] 0).filter
        (fun e => wCycle e == 1)
      = [WEvent.tick 1, WEvent.refreshAttempt 1] := by
  have := (C6_renewal_cycle_order
    [{ refreshRaises := false, renewFails := false },
     { refreshRaises := true, renewFails := true }] 1 (by decide)).1
  simpa using this

/-! ### token_manager.py — `TokenManager._auto_refresh_worker` -/

/-- Calls made by the token manager's own background refresh worker, tagged
with their cycle: the timed wait completing, the `refresh_access_token()`
call, and the fallback `get_initial_token()` call. -/
inductive TEvent
  | waitTick (n : Nat)
  | refreshCall (n : Nat)
  | initialTokenCall (n : Nat)
deriving DecidableEq, Repr

/-- The cycle an event belongs to. -/
def tCycle : TEvent → Nat
  | TEvent.waitTick n => n
  | TEvent.refreshCall n => n
  | TEvent.initialTokenCall n => n

/-- What one auto-refresh cycle's `refresh_access_token()` call runs into. -/
inductive CycleOutcome
  | ok
  | httpError (status : Option Nat)
  | otherError
deriving DecidableEq, Repr

/-- The guard at token_manager.py line 229: the raised exception is an
`HTTPError` whose response carries status 400 or 401. -/
def isAuthInvalid : CycleOutcome → Bool
  | CycleOutcome.httpError (some s) => s == 400 || s == 401
  | _ => false

/-- One cycle of `TokenManager._auto_refresh_worker` (token_manager.py,
lines 217–243): after the wait, `refresh_access_token()` is called; if it
raises an `HTTPError` with response status 400 or 401, the handler
immediately calls `get_initial_token()` within the same cycle (its own
failure is caught and only logged); any other exception is only logged.
Either way the loop then returns to the timed wait. -/
def autoRefreshCycleEvents (i : Nat) (o : CycleOutcome) : List TEvent :=
  TEvent.waitTick i :: TEvent.refreshCall i ::
    (if isAuthInvalid o then [TEvent.initialTokenCall i] else [])

/-- A run of `TokenManager._auto_refresh_worker` over the given completed
cycles, starting at cycle number `start`. -/
def auto_refresh_worker (outs : List CycleOutcome) (start : Nat) :
    List TEvent :=
  cycleTrace autoRefreshCycleEvents outs start

theorem autoRefreshCycleEvents_tag (i : Nat) (o : CycleOutcome) :
    ∀ e ∈ autoRefreshCycleEvents i o, tCycle e = i := by
  intro e he
  simp only [autoRefreshCycleEvents, List.mem_cons] at he
  rcases he with rfl | rfl | he
  · rfl
  · rfl
  · cases hc : isAuthInvalid o with
    | false => rw [hc] at he; simp at he
    | true => rw [hc] at he; simp at he; subst he; rfl

/-- **C9, counterexample.** When a refresh fails with an `HTTPError` of
status 401, the worker performs an immediate fallback
`get_initial_token()` acquisition within the same cycle — contradicting
the claim that it never does. -/
theorem C9_counterexample :
    TEvent.initialTokenCall 0 ∈
      auto_refresh_worker [CycleOutcome.httpError (some 401)] 0 := by
  decide

/-- **C9, amended.** In every completed cycle `i` of the token manager's
own background refresh worker, the events of the cycle are exactly: the
wait completing, then one `refresh_access_token()` call, then — only when
that call raised an `HTTPError` with response status 400 or 401 — one
immediate `get_initial_token()` fallback within the same cycle.  On every
other failure the worker only logs and waits for the next tick, and the
refresh itself is never retried within a cycle. -/
theorem C9_auto_refresh_cycle (outs : List CycleOutcome) (i : Nat)
    (h : i < outs.length) :
    (auto_refresh_worker outs 0).filter (fun e => tCycle e == i) =
      TEvent.waitTick i :: TEvent.refreshCall i ::
        (if isAuthInvalid outs[i] then [TEvent.initialTokenCall i] else []) := by
  have := cycleTrace_filter autoRefreshCycleEvents tCycle
    autoRefreshCycleEvents_tag outs 0 i h
  simpa [auto_refresh_worker, autoRefreshCycleEvents] using this

/-- Witness for C9's amended statement: a run whose cycle 0 fails with a
connection error contains no fallback acquisition and exactly one refresh
call in that cycle. -/
theorem C9_auto_refresh_cycle_witness :
    (auto_refresh_worker [CycleOutcome.otherError, CycleOutcome.ok] 0).filter
        (fun e => tCycle e == 0)
      = [TEvent.waitTick 0, TEvent.refreshCall 0] := by
  have := C9_auto_refresh_cycle [CycleOutcome.otherError, CycleOutcome.ok] 0
    (by decide)
  simpa using this

/-! ## kafka_consumer.py — `NokiaKafkaConsumer._consume_worker`
(spec: StreamConsumer) -/

/-- A decoded JSON value, as produced by `json.loads` in the consumer's
`value_deserializer` (kafka_consumer.py, line 85). -/
inductive JsonVal
  | jNull
  | jBool (b : Bool)
  | jNum (n : Int)
  | jStr (s : String)
  | jArr (xs : List JsonVal)
  | jObj (fields : List (String × JsonVal))

/-- Python truthiness of a decoded JSON value: `None`, `False`, `0`, `""`,
`[]` and `{}` are falsy. -/
def jsonTruthy : JsonVal → Bool
  | JsonVal.jNull => false
  | JsonVal.jBool b => b
  | JsonVal.jNum n => !(n == 0)
  | JsonVal.jStr s => !(s == "")
  | JsonVal.jArr xs => !xs.isEmpty
  | JsonVal.jObj fs => !fs.isEmpty

/-- Truthiness of `message.value`: the deserializer returns `None` for an
empty raw payload (`... if m else None`), which is falsy. -/
def optTruthy : Option JsonVal → Bool
  | none => false
  | some v => jsonTruthy v

/-- One step of the broker iterator `for message in self.consumer`: either
it yields a record whose `value` is the already-deserialized payload
(`None` for an empty raw payload), or the `value_deserializer`'s
`json.loads` raises on a malformed payload — inside the iterator call,
before the loop body runs. -/
inductive FetchItem
  | msg (value : Option JsonVal)
  | decodeError

/-- How the consumption loop ended: the broker stream ended, the stop event
was observed, or an exception escaped the `for` statement and was caught by
the worker's outer `except` clauses (`KafkaError` or any other). -/
inductive ExitKind
  | streamEnded
  | stopped
  | kafkaErr
  | unexpectedErr

/-- What a run of the consumption loop did: the final `message_count`, the
values passed to a handler (the configured one, or the default sink-writing
handler when none is set), in dispatch order, and how the loop ended. -/
structure ConsumeResult where
  count : Nat
  dispatched : List JsonVal
  exit : ExitKind

/-- The outcome of one handler invocation: the handler may throw. -/
def handlerOutcome (throws : JsonVal → Bool) (v : JsonVal) : Except Unit Unit :=
  if throws v then Except.error () else Except.ok ()

/-- The loop of `NokiaKafkaConsumer._consume_worker` (kafka_consumer.py,
lines 145–179), with `idx` the arrival index, `c` the running
`message_count` and `acc` the reversed dispatch log.  Per iteration, in
source order: the iterator produces the next record — a deserializer
exception propagates out of the `for` and is caught only by the outer
`except`, ending the loop; then the stop event is checked; then
`message_count` is incremented; then the inner `try` reads `message.value`
and, when it is truthy, invokes the handler — an exception the handler
raises is caught by the inner `except` (line 171), only logged, and the
loop continues either way. -/
def consumeGo (stop : Nat → Bool) (throws : JsonVal → Bool) :
    List FetchItem → Nat → Nat → List JsonVal → ConsumeResult
  | [], _, c, acc => ⟨c, acc.reverse, ExitKind.streamEnded⟩
  | FetchItem.decodeError :: _, _, c, acc =>
      ⟨c, acc.reverse, ExitKind.unexpectedErr⟩
  | FetchItem.msg v :: rest, idx, c, acc =>
      if stop idx then ⟨c, acc.reverse, ExitKind.stopped⟩
      else
        if optTruthy v then
          match handlerOutcome throws (v.getD JsonVal.jNull) with
          | Except.error _ =>
              consumeGo stop throws rest (idx + 1) (c + 1)
                (v.getD JsonVal.jNull :: acc)
          | Except.ok _ =>
              consumeGo stop throws rest (idx + 1) (c + 1)
                (v.getD JsonVal.jNull :: acc)
        else
          consumeGo stop throws rest (idx + 1) (c + 1) acc

/-- A run of `NokiaKafkaConsumer._consume_worker` over the given incoming
items, with stop-event schedule `stop` and a handler throwing on the values
selected by `throws`. -/
def consume_worker (items : List FetchItem) (stop : Nat → Bool)
    (throws : JsonVal → Bool) : ConsumeResult :=
  consumeGo stop throws items 0 0 []

/-- The truthy decoded values among the incoming items, in arrival order:
exactly the values the loop hands to a handler. -/
def truthyVals : List FetchItem → List JsonVal
  | [] => []
  | FetchItem.decodeError :: rest => truthyVals rest
  | FetchItem.msg v :: rest =>
      if optTruthy v then v.getD JsonVal.jNull :: truthyVals rest
      else truthyVals rest

theorem optTruthy_getD {v : Option JsonVal} (h : optTruthy v = true) :
    jsonTruthy (v.getD JsonVal.jNull) = true := by
  cases v with
  | none => simp [optTruthy] at h
  | some w => simpa [optTruthy] using h

theorem truthyVals_truthy (items : List FetchItem) :
    ∀ v ∈ truthyVals items, jsonTruthy v = true := by
  induction items with
  | nil => simp [truthyVals]
  | cons item rest ih =>
      cases item with
      | decodeError => simpa [truthyVals] using ih
      | msg v =>
          by_cases h : optTruthy v = true
          · intro w hw
            simp only [truthyVals, h, if_true] at hw
            rcases List.mem_cons.mp hw with rfl | hw'
            · exact optTruthy_getD h
            · exact ih w hw'
          · intro w hw
            simp only [truthyVals, if_neg h] at hw
            exact ih w hw

/-- With no malformed payload and the stop event never set, the loop runs
to the end of the stream, counts every message, and dispatches exactly the
truthy values in order — independently of which handler invocations
throw. -/
theorem consumeGo_no_decode (stop : Nat → Bool) (throws : JsonVal → Bool)
    (hstop : ∀ i, stop i = false) :
    ∀ (items : List FetchItem) (idx c : Nat) (acc : List JsonVal),
      FetchItem.decodeError ∉ items →
      consumeGo stop throws items idx c acc =
        ⟨c + items.length, acc.reverse ++ truthyVals items,
         ExitKind.streamEnded⟩ := by
  intro items
  induction items with
  | nil => intro idx c acc _; simp [consumeGo, truthyVals]
  | cons item rest ih =>
      intro idx c acc hnd
      cases item with
      | decodeError => exact absurd (List.mem_cons_self _ _) hnd
      | msg v =>
          have hnd' : FetchItem.decodeError ∉ rest := fun hmem =>
            hnd (List.mem_cons_of_mem _ hmem)
          simp only [consumeGo, hstop idx, Bool.false_eq_true, if_false]
          by_cases htr : optTruthy v = true
          · simp only [htr, if_true, handlerOutcome]
            by_cases hthrow : throws (v.getD JsonVal.jNull) = true
            · simp only [hthrow, if_true]
              rw [ih (idx + 1) (c + 1) (v.getD JsonVal.jNull :: acc) hnd']
              congr 1
              · simp only [List.length_cons]; omega
              · simp [truthyVals, htr]
            · simp only [Bool.not_eq_true] at hthrow
              simp only [hthrow, Bool.false_eq_true, if_false]
              rw [ih (idx + 1) (c + 1) (v.getD JsonVal.jNull :: acc) hnd']
              congr 1
              · simp only [List.length_cons]; omega
              · simp [truthyVals, htr]
          · simp only [if_neg htr]
            rw [ih (idx + 1) (c + 1) acc hnd']
            congr 1
            · simp only [List.length_cons]; omega
            · simp [truthyVals, if_neg htr]

/-- Whatever the incoming items, stop schedule and handler, every value
handed to a handler was truthy. -/
theorem consumeGo_dispatched_truthy (stop : Nat → Bool)
    (throws : JsonVal → Bool) :
    ∀ (items : List FetchItem) (idx c : Nat) (acc : List JsonVal),
      (∀ v ∈ acc, jsonTruthy v = true) →
      ∀ v ∈ (consumeGo stop throws items idx c acc).dispatched,
        jsonTruthy v = true := by
  intro items
  induction items with
  | nil =>
      intro idx c acc hacc v hv
      simp only [consumeGo] at hv
      exact hacc v (List.mem_reverse.mp hv)
  | cons item rest ih =>
      intro idx c acc hacc
      cases item with
      | decodeError =>
          intro v hv
          simp only [consumeGo] at hv
          exact hacc v (List.mem_reverse.mp hv)
      | msg v =>
          simp only [consumeGo]
          by_cases hs : stop idx = true
          · simp only [hs, if_true]
            intro w hw
            exact hacc w (List.mem_reverse.mp hw)
          · simp only [Bool.not_eq_true] at hs
            simp only [hs, Bool.false_eq_true, if_false]
            by_cases htr : optTruthy v = true
            · have hacc' : ∀ w ∈ v.getD JsonVal.jNull :: acc,
                  jsonTruthy w = true := by
                intro w hw
                rcases List.mem_cons.mp hw with rfl | hw'
                · exact optTruthy_getD htr
                · exact hacc w hw'
              simp only [htr, if_true, handlerOutcome]
              by_cases hthrow : throws (v.getD JsonVal.jNull) = true
              · simp only [hthrow, if_true]
                exact ih (idx + 1) (c + 1) _ hacc'
              · simp only [Bool.not_eq_true] at hthrow
                simp only [hthrow, Bool.false_eq_true, if_false]
                exact ih (idx + 1) (c + 1) _ hacc'
            · simp only [if_neg htr]
              exact ih (idx + 1) (c + 1) acc hacc

/-! ## Claim theorems for the stream consumer -/

/-- **C1, counterexample.** A malformed payload raises inside the broker
iterator, outside the per-message `try`: with a malformed `m1` followed by
a well-formed `m2`, the loop is terminated by the outer `except` clause and
`m2` is never dispatched — a malformed payload does prevent the following
message and does terminate the loop. -/
theorem C1_counterexample :
    (consume_worker [FetchItem.decodeError,
        FetchItem.msg (some (JsonVal.jStr "m2"))]
      (fun _ => false) (fun _ => false)).dispatched = []
    ∧ (consume_worker [FetchItem.decodeError,
        FetchItem.msg (some (JsonVal.jStr "m2"))]
      (fun _ => false) (fun _ => false)).exit = ExitKind.unexpectedErr :=
  ⟨rfl, rfl⟩

/-- **C1, amended.** An exception thrown by the handler while processing a
message is caught by the per-message `try`/`except` and the loop continues:
for every incoming sequence free of malformed payloads, and whatever
messages the handler throws on, the dispatched values are exactly the
truthy decoded values in arrival order (so a handler throwing on `m1` does
not prevent `m2` from being dispatched) and the loop never terminates
early.  A malformed payload, however, raises inside the iterator and does
terminate the loop (see the counterexample). -/
theorem C1_handler_fault_isolated (items : List FetchItem)
    (stop : Nat → Bool) (throws : JsonVal → Bool)
    (hstop : ∀ i, stop i = false)
    (hnd : FetchItem.decodeError ∉ items) :
    (consume_worker items stop throws).dispatched = truthyVals items
    ∧ (consume_worker items stop throws).exit = ExitKind.streamEnded := by
  rw [consume_worker, consumeGo_no_decode stop throws hstop items 0 0 [] hnd]
  exact ⟨by simp, rfl⟩

/-- Witness for C1's amended statement: a handler that throws on every
message still gets both well-formed messages dispatched, in order. -/
theorem C1_handler_fault_isolated_witness :
    (consume_worker [FetchItem.msg (some (JsonVal.jStr "m1")),
        FetchItem.msg (some (JsonVal.jStr "m2"))]
      (fun _ => false) (fun _ => true)).dispatched
      = [JsonVal.jStr "m1", JsonVal.jStr "m2"] := by
  have h := C1_handler_fault_isolated
    [FetchItem.msg (some (JsonVal.jStr "m1")),
     FetchItem.msg (some (JsonVal.jStr "m2"))]
    (fun _ => false) (fun _ => true) (fun _ => rfl)
    (by intro hmem
        rcases List.mem_cons.mp hmem with h | hmem
        · exact FetchItem.noConfusion h
        · rcases List.mem_cons.mp hmem with h | hmem
          · exact FetchItem.noConfusion h
          · simp at hmem)
  rw [h.1]
  rfl

/-- **C10.** A message whose decoded value is `None` or otherwise falsy is
counted but never dispatched: every value handed to a handler (configured
or default) is truthy — whatever the stop schedule and handler faults —
while `message_count` counts every arriving message, falsy or not, when no
payload is malformed and the stop event stays clear. -/
theorem C10_falsy_counted_not_dispatched (items : List FetchItem)
    (stop : Nat → Bool) (throws : JsonVal → Bool)
    (hstop : ∀ i, stop i = false) :
    (∀ v ∈ (consume_worker items stop throws).dispatched,
        jsonTruthy v = true)
    ∧ (FetchItem.decodeError ∉ items →
        (consume_worker items stop throws).count = items.length) := by
  constructor
  · exact consumeGo_dispatched_truthy stop throws items 0 0 [] (by simp)
  · intro hnd
    rw [consume_worker, consumeGo_no_decode stop throws hstop items 0 0 [] hnd]
    simp

/-- Witness for C10: an empty-object message and an empty-payload message
are both counted and neither is dispatched. -/
theorem C10_falsy_counted_not_dispatched_witness :
    (consume_worker [FetchItem.msg (some (JsonVal.jObj [])),
        FetchItem.msg none] (fun _ => false) (fun _ => false)).count = 2
    ∧ (consume_worker [FetchItem.msg (some (JsonVal.jObj [])),
        FetchItem.msg none] (fun _ => false) (fun _ => false)).dispatched
      = [] := by
  have h := C10_falsy_counted_not_dispatched
    [FetchItem.msg (some (JsonVal.jObj [])), FetchItem.msg none]
    (fun _ => false) (fun _ => false) (fun _ => rfl)
  refine ⟨?_, rfl⟩
  exact h.2 (by intro hmem
                rcases List.mem_cons.mp hmem with hctr | hmem
                · exact FetchItem.noConfusion hctr
                · rcases List.mem_cons.mp hmem with hctr | hmem
                  · exact FetchItem.noConfusion hctr
                  · simp at hmem)

end NokiaGateway
